import Mathlib

/-!
Verification of the news-site CMS backend (`src/main.py`, `src/schemas.py`).

The document-store adapter (`database.py`: `db`, `create_document`,
`get_documents`) is not part of the sources; its behaviour is modelled from
the spec (§4.1 Document Store Adapter).  Everything else is translated from
`src/main.py` and `src/schemas.py`.

Strings are modelled as Lean `String` / `List Char`; Python `str.lower()` is
modelled as ASCII lower-casing (`Char.toLower`), Python timestamps
(`datetime.utcnow()`) as an abstract `Nat` parameter, and the Mongo document
type as an association list from field names to a dynamic `Value` type.
-/

namespace NewsApi

/-- Dynamic document field values (the subset of BSON this app produces). -/
inductive Value where
  | str (s : String)
  | bool (b : Bool)
  | int (n : Int)
  | null
  | strlist (l : List String)
  | time (t : Nat)
deriving DecidableEq

/-- A stored document: an association list of field name to value
(Python dicts have unique keys; lookup takes the first binding). -/
def Document := List (String × Value)

instance : DecidableEq Document := by
  unfold Document
  infer_instance

/-- First-binding lookup of a field in a document. -/
def docGet (d : Document) (k : String) : Option Value :=
  match d with
  | [] => none
  | (k', v) :: rest => if k' = k then some v else docGet rest k

/-- Mongo-style equality filter: the document matches iff every
(key, value) pair of the filter is literally present. -/
def matchesFilter (d : Document) (filt : List (String × Value)) : Bool :=
  filt.all fun kv => decide (docGet d kv.1 = some kv.2)

/-- The four collections the handlers touch.  The adapter owns all
persisted state (spec §3); insertion order is preserved. -/
structure Store where
  category : List Document
  author : List Document
  article : List Document
  comment : List Document
deriving DecidableEq

/-- The empty store. -/
def emptyStore : Store := ⟨[], [], [], []⟩

/-- Modelled from the spec: `database.py`'s `get_documents` /
`find(collection, filter, limit = unbounded)` returns the documents
matching the filter, in store (insertion) order, truncated to `limit`
when given (spec §4.1). -/
def get_documents (docs : List Document) (filt : List (String × Value))
    (limit : Option Nat) : List Document :=
  match limit with
  | none => docs.filter (fun d => matchesFilter d filt)
  | some n => (docs.filter (fun d => matchesFilter d filt)).take n

/-- Modelled from the spec: `database.py`'s `create_document` /
`insert(collection, document)` appends a document to the named
collection (spec §4.1). -/
def create_document (docs : List Document) (d : Document) : List Document :=
  docs ++ [d]

/-! ## Slug derivation (`create_article`, `src/main.py` line 138)

`slug = "-".join(payload.title.lower().split())`.

`pySplit` models Python's `str.split()` with no separator: split on runs
of whitespace, with no empty tokens; `pyIsSpace` models Python's ASCII
whitespace set. -/

/-- ASCII whitespace as recognised by Python's `str.split()`. -/
def pyIsSpace (c : Char) : Bool :=
  c = ' ' || c = '\t' || c = '\n' || c = '\r' || c = '\x0b' || c = '\x0c'

/-- A non-whitespace character. -/
def nonWs (c : Char) : Bool := !pyIsSpace c

/-- Python `str.split()` (no separator): whitespace-run splitting,
dropping empty tokens. -/
def pySplit : List Char → List (List Char)
  | [] => []
  | c :: cs =>
    if pyIsSpace c then pySplit cs
    else (c :: cs.takeWhile nonWs) :: pySplit (cs.dropWhile nonWs)
termination_by l => l.length
decreasing_by
  all_goals
    have h : (List.dropWhile nonWs cs).length ≤ cs.length :=
      List.Sublist.length_le (List.dropWhile_sublist nonWs)
    simp only [List.length_cons]
    omega

/-- Python `"-".join(tokens)`. -/
def joinHyphen : List (List Char) → List Char
  | [] => []
  | [t] => t
  | t :: ts => t ++ '-' :: joinHyphen ts

/-- The slug computed by `create_article` (`src/main.py` line 138):
`"-".join(title.lower().split())`. -/
def slugify (title : String) : String :=
  ⟨joinHyphen (pySplit (title.data.map Char.toLower))⟩

/-! ### The spec's wording of the slug transformation

The spec (§8) describes the slug as "the title lower-cased with
whitespace runs collapsed to single hyphens" (leading/trailing
whitespace dropped).  `slugSpec` is written from those words, to be
compared with `slugify`, which is written from the source. -/

/-- Drop trailing whitespace. -/
def trimRightWs : List Char → List Char
  | [] => []
  | c :: cs =>
    match trimRightWs cs with
    | [] => if pyIsSpace c then [] else [c]
    | r => c :: r

/-- Replace every maximal run of whitespace by a single hyphen. -/
def collapseWsRuns : List Char → List Char
  | [] => []
  | c :: cs =>
    if pyIsSpace c then '-' :: collapseWsRuns (cs.dropWhile pyIsSpace)
    else c :: collapseWsRuns cs
termination_by l => l.length
decreasing_by
  all_goals
    have h : (List.dropWhile pyIsSpace cs).length ≤ cs.length :=
      List.Sublist.length_le (List.dropWhile_sublist pyIsSpace)
    simp only [List.length_cons]
    omega

/-- The slug as worded by the spec: lower-case the title, drop
leading/trailing whitespace, collapse every interior whitespace run to a
single hyphen. -/
def slugSpec (title : String) : String :=
  ⟨collapseWsRuns (trimRightWs ((title.data.map Char.toLower).dropWhile pyIsSpace))⟩

/-! ## Domain schemas (`src/schemas.py`)

Pydantic validation is modelled field by field: a required field must be
present with the right shape; an optional field may be absent or null; a
defaulted field takes its default when absent.  `isValidHttpUrl` models
pydantic's `HttpUrl` coercion (scheme `http`/`https` plus a non-empty
remainder). -/

/-- Does the second list begin with the first one? -/
def chStarts : List Char → List Char → Bool
  | [], _ => true
  | _ :: _, [] => false
  | p :: ps, c :: cs => p = c && chStarts ps cs

/-- Model of pydantic `HttpUrl` validity: an `http://` or `https://`
scheme followed by a non-empty host part. -/
def isValidHttpUrl (s : String) : Bool :=
  (chStarts "http://".data s.data && decide (7 < s.data.length)) ||
  (chStarts "https://".data s.data && decide (8 < s.data.length))

/-- Required `str` field: present and a string (pydantic `str = Field(...)`;
note the empty string is a string, hence accepted). -/
def reqStr (d : Document) (k : String) : Except String String :=
  match docGet d k with
  | some (Value.str s) => Except.ok s
  | _ => Except.error k

/-- Optional `str` field (`Optional[str] = None`): absent or null gives
`none`, a string gives `some`. -/
def optStrField (d : Document) (k : String) : Except String (Option String) :=
  match docGet d k with
  | none => Except.ok none
  | some Value.null => Except.ok none
  | some (Value.str s) => Except.ok (some s)
  | some _ => Except.error k

/-- Optional `HttpUrl` field (`Optional[HttpUrl] = None`): absent or null
gives `none`, a string must be a valid URL. -/
def optUrlField (d : Document) (k : String) : Except String (Option String) :=
  match docGet d k with
  | none => Except.ok none
  | some Value.null => Except.ok none
  | some (Value.str s) =>
      if isValidHttpUrl s then Except.ok (some s) else Except.error k
  | some _ => Except.error k

/-- Field of type `List[str]` with `default_factory=list`: absent gives `[]`,
a list of strings is taken as is, anything else (including null) fails. -/
def strListField (d : Document) (k : String) : Except String (List String) :=
  match docGet d k with
  | none => Except.ok []
  | some (Value.strlist l) => Except.ok l
  | some _ => Except.error k

/-- Field of type `bool` with a default: absent gives the default. -/
def boolField (d : Document) (k : String) (dflt : Bool) : Except String Bool :=
  match docGet d k with
  | none => Except.ok dflt
  | some (Value.bool b) => Except.ok b
  | some _ => Except.error k

/-- Field of type `int` with a default: absent gives the default. -/
def intField (d : Document) (k : String) (dflt : Int) : Except String Int :=
  match docGet d k with
  | none => Except.ok dflt
  | some (Value.int n) => Except.ok n
  | some _ => Except.error k

/-- Field of type `Optional[datetime] = None`. -/
def optTimeField (d : Document) (k : String) : Except String (Option Nat) :=
  match docGet d k with
  | none => Except.ok none
  | some Value.null => Except.ok none
  | some (Value.time t) => Except.ok (some t)
  | some _ => Except.error k

/-- The `Article` schema (`src/schemas.py` lines 36-48). -/
structure Article where
  title : String
  slug : String
  summary : String
  content : String
  category : String
  author_name : String
  cover_image : Option String
  tags : List String
  published : Bool
  published_at : Option Nat
  view_count : Int
deriving DecidableEq

/-- Constructing an `Article` from an untyped document
(`Article(**data)`), with pydantic field validation. -/
def Article.validate (d : Document) : Except String Article := do
  let title ← reqStr d "title"
  let slug ← reqStr d "slug"
  let summary ← reqStr d "summary"
  let content ← reqStr d "content"
  let category ← reqStr d "category"
  let author_name ← reqStr d "author_name"
  let cover_image ← optUrlField d "cover_image"
  let tags ← strListField d "tags"
  let published ← boolField d "published" true
  let published_at ← optTimeField d "published_at"
  let view_count ← intField d "view_count" 0
  pure ⟨title, slug, summary, content, category, author_name, cover_image,
        tags, published, published_at, view_count⟩

/-- The `Comment` schema (`src/schemas.py` lines 50-55). -/
structure Comment where
  article_slug : String
  name : String
  message : String
  likes : Int
deriving DecidableEq

/-- Constructing a `Comment` from an untyped document. -/
def Comment.validate (d : Document) : Except String Comment := do
  let article_slug ← reqStr d "article_slug"
  let name ← reqStr d "name"
  let message ← reqStr d "message"
  let likes ← intField d "likes" 0
  pure ⟨article_slug, name, message, likes⟩

/-- The `ArticleCreate` request schema (`src/main.py` lines 127-134).
`cover_image` is a plain `Optional[str]`: any string passes here. -/
structure ArticleCreate where
  title : String
  summary : String
  content : String
  category : String
  author_name : String
  cover_image : Option String
  tags : Option (List String)
deriving DecidableEq

/-- Field of type `Optional[List[str]] = []` in `ArticleCreate`: absent gives
the default `[]`, null gives `none`, a list of strings gives `some`. -/
def optStrListField (d : Document) (k : String) :
    Except String (Option (List String)) :=
  match docGet d k with
  | none => Except.ok (some [])
  | some Value.null => Except.ok none
  | some (Value.strlist l) => Except.ok (some l)
  | some _ => Except.error k

/-- FastAPI request-body validation of an `ArticleCreate` payload;
failure here is what produces an HTTP 422 response. -/
def ArticleCreate.validate (d : Document) : Except String ArticleCreate := do
  let title ← reqStr d "title"
  let summary ← reqStr d "summary"
  let content ← reqStr d "content"
  let category ← reqStr d "category"
  let author_name ← reqStr d "author_name"
  let cover_image ← optStrField d "cover_image"
  let tags ← optStrListField d "tags"
  pure ⟨title, summary, content, category, author_name, cover_image, tags⟩

/-- The `CommentCreate` request schema (`src/main.py` lines 150-153). -/
structure CommentCreate where
  article_slug : String
  name : String
  message : String
deriving DecidableEq

/-- FastAPI request-body validation of a `CommentCreate` payload;
failure here is what produces an HTTP 422 response. -/
def CommentCreate.validate (d : Document) : Except String CommentCreate := do
  let article_slug ← reqStr d "article_slug"
  let name ← reqStr d "name"
  let message ← reqStr d "message"
  pure ⟨article_slug, name, message⟩

/-! ## Request handlers (`src/main.py`) -/

/-- Error responses a handler can produce: request-validation failure
(HTTP 422), lookup miss (HTTP 404), and an exception escaping the
handler body, e.g. a response-model `ValidationError` (HTTP 500). -/
inductive ApiErr where
  | validation422 (msg : String)
  | notFound404 (detail : String)
  | internal500 (msg : String)
deriving DecidableEq

/-- Encoding of an optional string value in a stored document. -/
def optVal : Option String → Value
  | none => Value.null
  | some s => Value.str s

/-- The query filter built by `list_articles` (`src/main.py` lines
113-115): always `published == True`; the category equality filter is
added only when the parameter is truthy (so neither for `None` nor for
the empty string). -/
def articlesFilter (category : Option String) : List (String × Value) :=
  ("published", Value.bool true) ::
    (match category with
     | some c => if c = "" then [] else [("category", Value.str c)]
     | none => [])

/-- Handler `list_articles` (`src/main.py` lines 111-117), at document level:
the documents fetched from the store (before response-model shaping). -/
def list_articles (s : Store) (category : Option String) (limit : Nat) :
    List Document :=
  get_documents s.article (articlesFilter category) (some limit)

/-- Handler `get_article` (`src/main.py` lines 119-124): fetch at most one
document with the given slug; 404 when none.  The response-model
construction of line 125 is `Article.validate` and is modelled
separately. -/
def get_article (s : Store) (slug : String) : Except ApiErr Document :=
  match get_documents s.article [("slug", Value.str slug)] (some 1) with
  | [] => Except.error (ApiErr.notFound404 "Article not found")
  | d :: _ => Except.ok d

/-- The document persisted by `create_article` (`src/main.py` lines
138-145): the payload fields plus `slug`, `published`, `published_at`,
`view_count`. -/
def articleData (now : Nat) (p : ArticleCreate) : Document :=
  [("title", Value.str p.title),
   ("summary", Value.str p.summary),
   ("content", Value.str p.content),
   ("category", Value.str p.category),
   ("author_name", Value.str p.author_name),
   ("cover_image", optVal p.cover_image),
   ("tags", match p.tags with
            | none => Value.null
            | some l => Value.strlist l),
   ("slug", Value.str (slugify p.title)),
   ("published", Value.bool true),
   ("published_at", Value.time now),
   ("view_count", Value.int 0)]

/-- Handler `create_article` (`src/main.py` lines 136-147), after request
validation: persist the document, then build the `Article` response.
A response-validation failure (line 147) escapes as a 500 — after the
document has already been persisted. -/
def create_article (now : Nat) (s : Store) (p : ArticleCreate) :
    Store × Except ApiErr Article :=
  let data := articleData now p
  let s' := { s with article := create_document s.article data }
  match Article.validate data with
  | Except.ok a => (s', Except.ok a)
  | Except.error e => (s', Except.error (ApiErr.internal500 e))

/-- The full `POST /api/articles` pipeline: FastAPI request validation
(a failure is a 422 and touches nothing), then the handler body. -/
def create_article_endpoint (now : Nat) (s : Store) (raw : Document) :
    Store × Except ApiErr Article :=
  match ArticleCreate.validate raw with
  | Except.error e => (s, Except.error (ApiErr.validation422 e))
  | Except.ok p => create_article now s p

/-- The document persisted by `post_comment` (`payload.model_dump()`,
`src/main.py` line 157): exactly the three payload fields — no `likes`
field is stored. -/
def commentData (p : CommentCreate) : Document :=
  [("article_slug", Value.str p.article_slug),
   ("name", Value.str p.name),
   ("message", Value.str p.message)]

/-- Handler `post_comment` (`src/main.py` lines 155-158), after request
validation: append the comment document.  No other collection is read
or written — in particular no check that the article exists. -/
def post_comment (s : Store) (p : CommentCreate) : Store :=
  { s with comment := create_document s.comment (commentData p) }

/-- The full `POST /api/comments` pipeline: request validation, then
the handler body (which always answers `{status: "ok"}`). -/
def post_comment_endpoint (s : Store) (raw : Document) :
    Store × Except ApiErr Unit :=
  match CommentCreate.validate raw with
  | Except.error e => (s, Except.error (ApiErr.validation422 e))
  | Except.ok p => (post_comment s p, Except.ok ())

/-- Validate a list of documents as `Comment`s (the comprehension of
`src/main.py` line 163); the first bad document aborts the response. -/
def validateComments : List Document → Except String (List Comment)
  | [] => Except.ok []
  | d :: ds =>
    match Comment.validate d, validateComments ds with
    | Except.ok c, Except.ok cs => Except.ok (c :: cs)
    | Except.error e, _ => Except.error e
    | Except.ok _, Except.error e => Except.error e

/-- Handler `list_comments` (`src/main.py` lines 160-163): all comment
documents with the given `article_slug`, shaped as `Comment`s. -/
def list_comments (s : Store) (article_slug : String) :
    Except ApiErr (List Comment) :=
  match validateComments
      (get_documents s.comment [("article_slug", Value.str article_slug)] none) with
  | Except.ok l => Except.ok l
  | Except.error e => Except.error (ApiErr.internal500 e)

/-! ## Bootstrap routine (`src/main.py` lines 63-102) -/

/-- The five default categories seeded by `bootstrap_defaults`. -/
def defaultCategories : List Document :=
  [[("name", Value.str "Top Stories"), ("slug", Value.str "top-stories"),
    ("description", Value.str "Latest headlines")],
   [("name", Value.str "Technology"), ("slug", Value.str "technology"),
    ("description", Value.str "Tech news and analysis")],
   [("name", Value.str "Business"), ("slug", Value.str "business"),
    ("description", Value.str "Market and company news")],
   [("name", Value.str "Sports"), ("slug", Value.str "sports"),
    ("description", Value.str "Scores and highlights")],
   [("name", Value.str "World"), ("slug", Value.str "world"),
    ("description", Value.str "Global news")]]

/-- The default author seeded by `bootstrap_defaults`. -/
def defaultAuthor : Document :=
  [("name", Value.str "Staff Reporter"), ("bio", Value.str "Newsroom"),
   ("avatar_url", Value.null)]

/-- The sample article seeded by `bootstrap_defaults`. -/
def sampleArticle (now : Nat) : Document :=
  [("title", Value.str "Welcome to Your News Site"),
   ("slug", Value.str "welcome-to-your-news-site"),
   ("summary", Value.str "This is a sample article to get you started."),
   ("content", Value.str
     "<p>Use the editor to publish your first story. This sample shows the layout.</p>"),
   ("category", Value.str "top-stories"),
   ("author_name", Value.str "Staff Reporter"),
   ("cover_image", Value.null),
   ("tags", Value.strlist ["news", "sample"]),
   ("published", Value.bool true),
   ("published_at", Value.time now),
   ("view_count", Value.int 0)]

/-- Handler `bootstrap_defaults` (`src/main.py` lines 63-102): each of the
three seed groups is checked independently (emptiness of a `find({})` /
`count_documents({}) == 0` probe) and seeded only when empty. -/
def bootstrap_defaults (now : Nat) (s : Store) : Store :=
  let s1 :=
    if (get_documents s.category [] none).isEmpty then
      { s with category := defaultCategories.foldl create_document s.category }
    else s
  let s2 :=
    if (get_documents s1.author [] none).isEmpty then
      { s1 with author := create_document s1.author defaultAuthor }
    else s1
  if (get_documents s2.article [] none).length == 0 then
    { s2 with article := create_document s2.article (sampleArticle now) }
  else s2

/-! ## Diagnostic endpoint (`GET /test`, `src/main.py` lines 25-56) -/

/-- Outcome of probing the store, covering every path of the handler's
nested `try`/`except` blocks: an exception from the availability probe
itself, an unconfigured store (`db is None`), a failure from
`list_collection_names`, or a successful listing. -/
inductive DbProbe where
  | availErr (msg : String)
  | noDb
  | listErr (msg : String)
  | listOk (cols : List String)
deriving DecidableEq

/-- The body of the `/test` response. -/
structure TestResponse where
  backend : String
  database : String
  database_url : String
  database_name : String
  connection_status : String
  collections : List String
deriving DecidableEq

/-- Python `str(e)[:50]`: the first 50 code points. -/
def truncate50 (msg : String) : String := ⟨msg.data.take 50⟩

/-- Handler `test_database` (`src/main.py` lines 25-56).  Every store failure is
caught and reported inside the 200 body; the `database_url` and
`database_name` fields are overwritten at the end (lines 53-54) from
environment-variable presence, so the intermediate values of lines
39-40 never survive. -/
def test_database (probe : DbProbe) (urlSet dbNameSet : Bool) : TestResponse :=
  { backend := "✅ Running"
    database :=
      match probe with
      | DbProbe.availErr msg => "❌ Error: " ++ truncate50 msg
      | DbProbe.noDb => "⚠️  Available but not initialized"
      | DbProbe.listErr msg => "⚠️  Connected but Error: " ++ truncate50 msg
      | DbProbe.listOk _ => "✅ Connected & Working"
    database_url := if urlSet then "✅ Set" else "❌ Not Set"
    database_name := if dbNameSet then "✅ Set" else "❌ Not Set"
    connection_status :=
      match probe with
      | DbProbe.availErr _ => "Not Connected"
      | DbProbe.noDb => "Not Connected"
      | DbProbe.listErr _ => "Connected"
      | DbProbe.listOk _ => "Connected"
    collections :=
      match probe with
      | DbProbe.listOk cols => cols.take 10
      | _ => [] }

/-! ## Sample documents and stores used by concrete witnesses -/

/-- A published technology article document. -/
def techDoc : Document :=
  [("title", Value.str "A"), ("slug", Value.str "a"),
   ("summary", Value.str "s"), ("content", Value.str "c"),
   ("category", Value.str "technology"), ("author_name", Value.str "x"),
   ("published", Value.bool true)]

/-- A store holding a single published technology article. -/
def techStore : Store := ⟨[], [], [techDoc], []⟩

/-- A create-article request body whose `cover_image` is a string that
is not a valid URL. -/
def badCoverRaw : Document :=
  [("title", Value.str "T"), ("summary", Value.str "s"),
   ("content", Value.str "c"), ("category", Value.str "x"),
   ("author_name", Value.str "a"), ("cover_image", Value.str "not-a-url")]

/-- A comment request body whose `message` is the empty string. -/
def emptyMsgRaw : Document :=
  [("article_slug", Value.str "a"), ("name", Value.str "n"),
   ("message", Value.str "")]

/-! ## Equivalence of `slugify` with the spec's wording -/

theorem joinHyphen_cons_cons (c : Char) (t : List Char) (S : List (List Char)) :
    joinHyphen ((c :: t) :: S) = c :: joinHyphen (t :: S) := by
  cases S with
  | nil => rfl
  | cons s ss => rfl

theorem trimRightWs_cons_of_nonWs (c : Char) (cs : List Char)
    (h : pyIsSpace c = false) : trimRightWs (c :: cs) = c :: trimRightWs cs := by
  cases htr : trimRightWs cs with
  | nil => simp [trimRightWs, htr, h]
  | cons r rs => simp [trimRightWs, htr]

theorem trimRightWs_eq_nil_iff (l : List Char) :
    trimRightWs l = [] ↔ ∀ c ∈ l, pyIsSpace c = true := by
  induction l with
  | nil => simp [trimRightWs]
  | cons c cs ih =>
    by_cases hc : pyIsSpace c = true
    · cases htr : trimRightWs cs with
      | nil =>
        have hl : trimRightWs (c :: cs) = [] := by simp [trimRightWs, htr, hc]
        rw [hl]
        constructor
        · intro _ x hx
          rcases List.mem_cons.mp hx with h1 | h1
          · rw [h1]; exact hc
          · exact ih.mp htr x h1
        · intro _; rfl
      | cons r rs =>
        have hcs : ¬ ∀ x ∈ cs, pyIsSpace x = true := by
          intro hall
          rw [ih.mpr hall] at htr
          cases htr
        simp only [trimRightWs, htr]
        constructor
        · intro h0; cases h0
        · intro hall
          exact absurd (fun x hx => hall x (List.mem_cons_of_mem c hx)) hcs
    · have hcb : pyIsSpace c = false := by simpa using hc
      cases htr : trimRightWs cs with
      | nil =>
        simp [trimRightWs, htr, hcb]
      | cons r rs =>
        simp only [trimRightWs, htr]
        constructor
        · intro h0; cases h0
        · intro hall
          exact absurd (hall c (List.mem_cons_self c cs)) (by simp [hcb])

theorem pySplit_eq_nil_iff (l : List Char) :
    pySplit l = [] ↔ ∀ c ∈ l, pyIsSpace c = true := by
  induction l using pySplit.induct with
  | case1 => simp [pySplit]
  | case2 c cs hc ih =>
    simp only [pySplit, if_pos hc, List.mem_cons]
    rw [ih]
    constructor
    · intro h x hx
      rcases hx with hx | hx
      · rw [hx]; exact hc
      · exact h x hx
    · intro h x hx
      exact h x (Or.inr hx)
  | case3 c cs hc ih =>
    simp only [pySplit, if_neg hc]
    constructor
    · intro h0; cases h0
    · intro hall
      exact absurd (hall c (List.mem_cons_self c cs)) hc

theorem dropWhile_trimRightWs_comm (l : List Char) :
    (trimRightWs l).dropWhile pyIsSpace = trimRightWs (l.dropWhile pyIsSpace) := by
  induction l with
  | nil => rfl
  | cons c cs ih =>
    by_cases hc : pyIsSpace c = true
    · rw [List.dropWhile_cons_of_pos hc]
      cases htr : trimRightWs cs with
      | nil =>
        have h0 : trimRightWs (c :: cs) = [] := by simp [trimRightWs, htr, hc]
        rw [h0, ← ih, htr]
      | cons r rs =>
        have : trimRightWs (c :: cs) = c :: r :: rs := by simp [trimRightWs, htr]
        rw [this, List.dropWhile_cons_of_pos hc, ← htr, ih]
    · have hcb : pyIsSpace c = false := by simpa using hc
      rw [trimRightWs_cons_of_nonWs c cs hcb,
          List.dropWhile_cons_of_neg (by simp [hcb]),
          List.dropWhile_cons_of_neg (by simp [hcb]),
          trimRightWs_cons_of_nonWs c cs hcb]

theorem collapseWsRuns_cons_of_nonWs (c : Char) (l : List Char)
    (h : pyIsSpace c = false) :
    collapseWsRuns (c :: l) = c :: collapseWsRuns l := by
  simp [collapseWsRuns, h]

theorem collapseWsRuns_cons_of_ws (c : Char) (l : List Char)
    (h : pyIsSpace c = true) :
    collapseWsRuns (c :: l) = '-' :: collapseWsRuns (l.dropWhile pyIsSpace) := by
  simp [collapseWsRuns, h]

/-- Main inductive step: `"-".join(l.split())` equals the spec's
trim-then-collapse transformation, together with the strengthened
statement needed when the scan sits inside a token. -/
theorem joinSplit_aux : ∀ (n : Nat) (l : List Char), l.length ≤ n →
    joinHyphen (pySplit l) =
      collapseWsRuns (trimRightWs (l.dropWhile pyIsSpace)) ∧
    joinHyphen (l.takeWhile nonWs :: pySplit (l.dropWhile nonWs)) =
      collapseWsRuns (trimRightWs l) := by
  intro n
  induction n with
  | zero =>
    intro l hl
    have hnil : l = [] := List.eq_nil_of_length_eq_zero (Nat.le_zero.mp hl)
    subst hnil
    constructor <;> simp [pySplit, collapseWsRuns, trimRightWs, joinHyphen]
  | succ n ih =>
    intro l hl
    cases l with
    | nil =>
      constructor <;> simp [pySplit, collapseWsRuns, trimRightWs, joinHyphen]
    | cons c cs =>
      have hcs : cs.length ≤ n := by
        simp only [List.length_cons] at hl
        omega
      by_cases hc : pyIsSpace c = true
      · have hsplitskip : pySplit (c :: cs) = pySplit cs := by
          simp [pySplit, hc]
        have htake : (c :: cs).takeWhile nonWs = [] :=
          List.takeWhile_cons_of_neg (by simp [nonWs, hc])
        have hdropnw : (c :: cs).dropWhile nonWs = c :: cs :=
          List.dropWhile_cons_of_neg (by simp [nonWs, hc])
        refine ⟨?_, ?_⟩
        · rw [hsplitskip, List.dropWhile_cons_of_pos hc]
          exact (ih cs hcs).1
        · rw [htake, hdropnw, hsplitskip]
          cases hsp : pySplit cs with
          | nil =>
            have hall : ∀ x ∈ cs, pyIsSpace x = true :=
              (pySplit_eq_nil_iff cs).mp hsp
            have htr : trimRightWs cs = [] :=
              (trimRightWs_eq_nil_iff cs).mpr hall
            have htr2 : trimRightWs (c :: cs) = [] := by
              simp [trimRightWs, htr, hc]
            rw [htr2]
            simp [collapseWsRuns, joinHyphen]
          | cons t ts =>
            have htrne : trimRightWs cs ≠ [] := by
              intro h0
              have hall := (trimRightWs_eq_nil_iff cs).mp h0
              rw [(pySplit_eq_nil_iff cs).mpr hall] at hsp
              cases hsp
            have htrcons : trimRightWs (c :: cs) = c :: trimRightWs cs := by
              cases htr2 : trimRightWs cs with
              | nil => exact absurd htr2 htrne
              | cons r rs => simp [trimRightWs, htr2]
            rw [htrcons, collapseWsRuns_cons_of_ws c _ hc,
                dropWhile_trimRightWs_comm]
            have hmain := (ih cs hcs).1
            rw [hsp] at hmain
            rw [← hmain]
            rfl
      · have hcb : pyIsSpace c = false := by simpa using hc
        have hnw : nonWs c = true := by simp [nonWs, hcb]
        have hsplit : pySplit (c :: cs) =
            (c :: cs.takeWhile nonWs) :: pySplit (cs.dropWhile nonWs) := by
          simp [pySplit, hcb]
        refine ⟨?_, ?_⟩
        · rw [List.dropWhile_cons_of_neg (by simp [hcb]), hsplit,
              joinHyphen_cons_cons, (ih cs hcs).2,
              trimRightWs_cons_of_nonWs c cs hcb,
              collapseWsRuns_cons_of_nonWs c _ hcb]
        · rw [List.takeWhile_cons_of_pos hnw, List.dropWhile_cons_of_pos hnw,
              joinHyphen_cons_cons, (ih cs hcs).2,
              trimRightWs_cons_of_nonWs c cs hcb,
              collapseWsRuns_cons_of_nonWs c _ hcb]

/-- The slug computed by the code equals the slug described by the
spec's words, for every title. -/
theorem slugify_eq_slugSpec (title : String) : slugify title = slugSpec title := by
  unfold slugify slugSpec
  have h := (joinSplit_aux (title.data.map Char.toLower).length
    (title.data.map Char.toLower) (Nat.le_refl _)).1
  rw [h]

/-! ## Claims -/

/-- Claim C2: starting from the empty store, calling bootstrap twice
leaves exactly 5 category documents, exactly 1 author document and at
least 1 article document, and the second call inserts nothing into any
group the first call seeded (the second call is the identity). -/
theorem bootstrap_twice_idempotent (t1 t2 : Nat) :
    bootstrap_defaults t2 (bootstrap_defaults t1 emptyStore) =
      bootstrap_defaults t1 emptyStore ∧
    (bootstrap_defaults t1 emptyStore).category.length = 5 ∧
    (bootstrap_defaults t1 emptyStore).author.length = 1 ∧
    1 ≤ (bootstrap_defaults t1 emptyStore).article.length :=
  ⟨rfl, rfl, rfl, Nat.le_refl 1⟩

/-- Claim C10: `list_articles` with the empty string as category filter
returns exactly the same sequence as `list_articles` with no category
parameter — the falsy filter value is dropped. -/
theorem list_articles_empty_category_eq_none (s : Store) (n : Nat) :
    list_articles s (some "") n = list_articles s none n := rfl

/-- Claim C3: every document returned by `list_articles` has
`published = true`, and when the category parameter is a non-empty
string every returned document's `category` field equals it exactly. -/
theorem list_articles_published_and_category (s : Store) (c : String) (n : Nat)
    (d : Document) (hd : d ∈ list_articles s (some c) n) :
    docGet d "published" = some (Value.bool true) ∧
    (c ≠ "" → docGet d "category" = some (Value.str c)) := by
  unfold list_articles get_documents at hd
  have h1 : d ∈ s.article.filter (fun x => matchesFilter x (articlesFilter (some c))) :=
    List.mem_of_mem_take hd
  have h2 : matchesFilter d (articlesFilter (some c)) = true :=
    (List.mem_filter.mp h1).2
  unfold matchesFilter articlesFilter at h2
  by_cases hc : c = ""
  · subst hc
    simp at h2
    exact ⟨h2, fun h => absurd rfl h⟩
  · simp [hc] at h2
    exact ⟨h2.1, fun _ => h2.2⟩

/-- Witness for C3 on a concrete store: the stored technology article
is returned and satisfies both filter facts. -/
theorem list_articles_published_and_category_witness :
    docGet techDoc "published" = some (Value.bool true) ∧
    ("technology" ≠ "" → docGet techDoc "category" = some (Value.str "technology")) :=
  list_articles_published_and_category techStore "technology" 20 techDoc (by decide)

/-- Claim C5: when no comment document carries the requested
`article_slug`, `list_comments` succeeds with the empty sequence
rather than failing. -/
theorem list_comments_missing_slug_empty (s : Store) (slug : String)
    (h : ∀ d ∈ s.comment, docGet d "article_slug" ≠ some (Value.str slug)) :
    list_comments s slug = Except.ok [] := by
  unfold list_comments get_documents
  have hnil : s.comment.filter
      (fun d => matchesFilter d [("article_slug", Value.str slug)]) = [] := by
    rw [List.filter_eq_nil_iff]
    intro d hd
    simp [matchesFilter]
    exact h d hd
  rw [hnil]
  rfl

/-- Witness for C5: a store with no comments at all answers the lookup
of a missing slug with the empty list. -/
theorem list_comments_missing_slug_empty_witness :
    list_comments techStore "missing-slug" = Except.ok [] :=
  list_comments_missing_slug_empty techStore "missing-slug" (by decide)

/-- Claim C4: `get_article` fails with 404 exactly when no stored
article document carries the requested slug; otherwise it returns the
first matching document in store order (the slug filter mentions no
other field, in particular not `published`). -/
theorem get_article_not_found_iff_first_match (s : Store) (slug : String) :
    (get_article s slug = Except.error (ApiErr.notFound404 "Article not found") ↔
      ∀ d ∈ s.article, docGet d "slug" ≠ some (Value.str slug)) ∧
    (∀ d, get_article s slug = Except.ok d →
      (s.article.filter fun x =>
        matchesFilter x [("slug", Value.str slug)]).head? = some d) := by
  have hget : get_article s slug =
      match (s.article.filter fun x =>
          matchesFilter x [("slug", Value.str slug)]).take 1 with
      | [] => Except.error (ApiErr.notFound404 "Article not found")
      | d :: _ => Except.ok d := rfl
  rcases hL : s.article.filter
      (fun x => matchesFilter x [("slug", Value.str slug)]) with _ | ⟨x, xs⟩
  · rw [hget, hL]
    constructor
    · constructor
      · intro _ d hd hslug
        have hnone := List.filter_eq_nil_iff.mp hL d hd
        apply hnone
        simp [matchesFilter, hslug]
      · intro _
        rfl
    · intro d hd
      cases hd
  · rw [hget, hL]
    simp only [List.take_succ_cons, List.take_zero]
    constructor
    · constructor
      · intro h0
        cases h0
      · intro hall
        exfalso
        have hx : x ∈ s.article.filter
            (fun x => matchesFilter x [("slug", Value.str slug)]) := by
          rw [hL]
          exact List.mem_cons_self x xs
        have hmx := List.mem_filter.mp hx
        have hdx : docGet x "slug" = some (Value.str slug) := by
          have := hmx.2
          simp [matchesFilter] at this
          exact this
        exact hall x hmx.1 hdx
    · intro d hd
      cases hd
      rfl

/-- Witness for C4 on a concrete store: the stored article is found
under its slug and is the first match. -/
theorem get_article_not_found_iff_first_match_witness :
    (techStore.article.filter fun x =>
      matchesFilter x [("slug", Value.str "a")]).head? = some techDoc :=
  (get_article_not_found_iff_first_match techStore "a").2 techDoc rfl

/-- Claim C9: the diagnostic endpoint never fails: it is a total
function into a 200-response body; a probe failure (at the availability
check or while listing collection names) is reported inline with the
message truncated to at most 50 characters, and at most 10 collection
names are listed. -/
theorem test_database_never_fails (probe : DbProbe) (urlSet dbNameSet : Bool) :
    (test_database probe urlSet dbNameSet).collections.length ≤ 10 ∧
    (∀ msg, probe = DbProbe.availErr msg →
      (test_database probe urlSet dbNameSet).database =
        "❌ Error: " ++ truncate50 msg) ∧
    (∀ msg, probe = DbProbe.listErr msg →
      (test_database probe urlSet dbNameSet).database =
        "⚠️  Connected but Error: " ++ truncate50 msg) ∧
    (∀ msg, (truncate50 msg).length ≤ 50) := by
  refine ⟨?_, ?_, ?_, ?_⟩
  · cases probe with
    | availErr m => exact Nat.zero_le 10
    | noDb => exact Nat.zero_le 10
    | listErr m => exact Nat.zero_le 10
    | listOk cols => exact List.length_take_le 10 cols
  · intro msg h
    subst h
    rfl
  · intro msg h
    subst h
    rfl
  · intro msg
    exact List.length_take_le 50 msg.data

/-- Witness for C9: a concrete listing failure is embedded, truncated,
in a 200 body. -/
theorem test_database_never_fails_witness :
    (test_database (DbProbe.listErr "boom") true false).database =
      "⚠️  Connected but Error: " ++ truncate50 "boom" :=
  (test_database_never_fails (DbProbe.listErr "boom") true false).2.2.1 "boom" rfl

/-- The document persisted by `post_comment` validates back to a
`Comment` whose `likes` is the schema default 0 (no `likes` field is
stored). -/
theorem validate_commentData (p : CommentCreate) :
    Comment.validate (commentData p) =
      Except.ok ⟨p.article_slug, p.name, p.message, 0⟩ := rfl

/-- Appending one validating document to a comment listing appends its
`Comment` to the response (or keeps the same failure). -/
theorem validateComments_snoc (l : List Document) (d : Document) (c : Comment)
    (hd : Comment.validate d = Except.ok c) :
    validateComments (l ++ [d]) =
      Except.map (fun cs => cs ++ [c]) (validateComments l) := by
  induction l with
  | nil => simp [validateComments, hd, Except.map]
  | cons x xs ih =>
    cases hx : Comment.validate x with
    | error e => simp [validateComments, hx, Except.map]
    | ok cx =>
      cases hxs : validateComments xs with
      | error e => simp [validateComments, hx, hxs, Except.map, ih]
      | ok cs => simp [validateComments, hx, hxs, Except.map, ih]

/-- Claim C8: `post_comment` touches only the comment collection — it
reads nothing, so in particular never checks that the article exists —
appends exactly the payload document, and a subsequent `list_comments`
on the payload's `article_slug` additionally returns the new comment,
with `likes = 0`. -/
theorem post_comment_persists_no_article_check (s : Store) (p : CommentCreate) :
    (post_comment s p).article = s.article ∧
    (post_comment s p).category = s.category ∧
    (post_comment s p).author = s.author ∧
    (post_comment s p).comment = s.comment ++ [commentData p] ∧
    list_comments (post_comment s p) p.article_slug =
      Except.map (fun l => l ++ [⟨p.article_slug, p.name, p.message, 0⟩])
        (list_comments s p.article_slug) := by
  refine ⟨rfl, rfl, rfl, rfl, ?_⟩
  have hfilter : (s.comment ++ [commentData p]).filter
      (fun d => matchesFilter d [("article_slug", Value.str p.article_slug)]) =
      s.comment.filter
        (fun d => matchesFilter d [("article_slug", Value.str p.article_slug)])
        ++ [commentData p] := by
    rw [List.filter_append]
    congr 1
    simp [matchesFilter, commentData, docGet]
  show (match validateComments ((s.comment ++ [commentData p]).filter
      (fun d => matchesFilter d [("article_slug", Value.str p.article_slug)])) with
    | Except.ok l => Except.ok l
    | Except.error e => Except.error (ApiErr.internal500 e)) =
    Except.map (fun l => l ++ [⟨p.article_slug, p.name, p.message, 0⟩])
      (match validateComments (s.comment.filter
          (fun d => matchesFilter d [("article_slug", Value.str p.article_slug)])) with
        | Except.ok l => Except.ok l
        | Except.error e => Except.error (ApiErr.internal500 e))
  rw [hfilter, validateComments_snoc _ _ _ (validate_commentData p)]
  cases hv : validateComments (s.comment.filter
      (fun d => matchesFilter d [("article_slug", Value.str p.article_slug)])) with
  | error e => simp [Except.map]
  | ok l => simp [Except.map]

/-- Claim C1: for every payload, the article document persisted by
`create_article` carries a slug equal to the payload's title
lower-cased with every maximal whitespace run collapsed to a single
hyphen and leading/trailing whitespace dropped (`slugSpec`), and so
does the returned article whenever the handler returns one. -/
theorem create_article_slug_is_spec_slug (now : Nat) (s : Store) (p : ArticleCreate) :
    docGet (articleData now p) "slug" = some (Value.str (slugSpec p.title)) ∧
    (create_article now s p).1.article = s.article ++ [articleData now p] ∧
    ∀ a, (create_article now s p).2 = Except.ok a → a.slug = slugSpec p.title := by
  obtain ⟨t, sm, ct, cat, an, ci, tg⟩ := p
  refine ⟨?_, ?_, ?_⟩
  · have h1 : docGet (articleData now ⟨t, sm, ct, cat, an, ci, tg⟩) "slug" =
        some (Value.str (slugify t)) := rfl
    rw [h1, slugify_eq_slugSpec]
  · cases hv : Article.validate (articleData now ⟨t, sm, ct, cat, an, ci, tg⟩) with
    | ok a => simp [create_article, hv, create_document]
    | error e => simp [create_article, hv, create_document]
  · intro a ha
    have hv : Article.validate (articleData now ⟨t, sm, ct, cat, an, ci, tg⟩) =
        Except.ok a := by
      unfold create_article at ha
      cases hv0 : Article.validate (articleData now ⟨t, sm, ct, cat, an, ci, tg⟩) with
      | ok b =>
        simp [hv0] at ha
        subst ha
        rfl
      | error e => simp [hv0] at ha
    cases ci with
    | none =>
      cases tg with
      | none =>
        rw [show Article.validate (articleData now ⟨t, sm, ct, cat, an, none, none⟩) =
            Except.error "tags" from rfl] at hv
        cases hv
      | some l =>
        rw [show Article.validate (articleData now ⟨t, sm, ct, cat, an, none, some l⟩) =
            Except.ok ⟨t, slugify t, sm, ct, cat, an, none, l, true, some now, 0⟩
            from rfl] at hv
        cases hv
        exact slugify_eq_slugSpec t
    | some u =>
      cases hurl : isValidHttpUrl u with
      | true =>
        cases tg with
        | none =>
          have hred : Article.validate
              (articleData now ⟨t, sm, ct, cat, an, some u, none⟩) =
              Except.error "tags" := by
            simp [Article.validate, articleData, reqStr, optUrlField, strListField,
                  boolField, optTimeField, intField, docGet, optVal, hurl]
            try rfl
          rw [hred] at hv
          cases hv
        | some l =>
          have hred : Article.validate
              (articleData now ⟨t, sm, ct, cat, an, some u, some l⟩) =
              Except.ok ⟨t, slugify t, sm, ct, cat, an, some u, l, true, some now, 0⟩ := by
            simp [Article.validate, articleData, reqStr, optUrlField, strListField,
                  boolField, optTimeField, intField, docGet, optVal, hurl]
            try rfl
          rw [hred] at hv
          cases hv
          exact slugify_eq_slugSpec t
      | false =>
        cases tg with
        | none =>
          have hred : Article.validate
              (articleData now ⟨t, sm, ct, cat, an, some u, none⟩) =
              Except.error "cover_image" := by
            simp [Article.validate, articleData, reqStr, optUrlField, strListField,
                  boolField, optTimeField, intField, docGet, optVal, hurl]
            try rfl
          rw [hred] at hv
          cases hv
        | some l =>
          have hred : Article.validate
              (articleData now ⟨t, sm, ct, cat, an, some u, some l⟩) =
              Except.error "cover_image" := by
            simp [Article.validate, articleData, reqStr, optUrlField, strListField,
                  boolField, optTimeField, intField, docGet, optVal, hurl]
            try rfl
          rw [hred] at hv
          cases hv

/-- Witness for C1: the payload titled `"Hello World"` is persisted and
returned with slug `"hello-world"`. -/
theorem create_article_slug_is_spec_slug_witness :
    (Article.mk "Hello World" (slugify "Hello World") "s" "c" "top-stories"
        "auth" none [] true (some 0) 0).slug = slugSpec "Hello World" :=
  (create_article_slug_is_spec_slug 0 emptyStore
      ⟨"Hello World", "s", "c", "top-stories", "auth", none, some []⟩).2.2
    (Article.mk "Hello World" (slugify "Hello World") "s" "c" "top-stories"
      "auth" none [] true (some 0) 0) rfl

/-- Counterexample to C6: a payload with the non-URL cover image
`"not-a-url"` passes `ArticleCreate` request validation (its
`cover_image` is a plain `Optional[str]`), so no 422 is produced; the
handler persists the document and then fails with a response-model
error (HTTP 500), not `ValidationError` (HTTP 422). -/
theorem create_article_bad_cover_counterexample :
    ArticleCreate.validate badCoverRaw =
      Except.ok ⟨"T", "s", "c", "x", "a", some "not-a-url", some []⟩ ∧
    (create_article_endpoint 0 emptyStore badCoverRaw).2 =
      Except.error (ApiErr.internal500 "cover_image") ∧
    (create_article_endpoint 0 emptyStore badCoverRaw).1.article.length = 1 :=
  ⟨rfl, rfl, rfl⟩

/-- Amended C6: a create-article payload whose `cover_image` is a
string that is not a valid URL is accepted by request validation (no
422); the handler persists the article document anyway and then fails
with an internal (500) response-validation error on `cover_image`. -/
theorem create_article_bad_cover_persists_then_500 (now : Nat) (s : Store)
    (p : ArticleCreate) (u : String) (hci : p.cover_image = some u)
    (hurl : isValidHttpUrl u = false) :
    (create_article now s p).1.article = s.article ++ [articleData now p] ∧
    (create_article now s p).2 = Except.error (ApiErr.internal500 "cover_image") := by
  obtain ⟨t, sm, ct, cat, an, ci, tg⟩ := p
  have hci2 : ci = some u := hci
  subst hci2
  have hred : Article.validate (articleData now ⟨t, sm, ct, cat, an, some u, tg⟩) =
      Except.error "cover_image" := by
    cases tg with
    | none =>
      simp [Article.validate, articleData, reqStr, optUrlField, strListField,
            boolField, optTimeField, intField, docGet, optVal, hurl]
      try rfl
    | some l =>
      simp [Article.validate, articleData, reqStr, optUrlField, strListField,
            boolField, optTimeField, intField, docGet, optVal, hurl]
      try rfl
  exact ⟨by simp [create_article, hred, create_document],
         by simp [create_article, hred]⟩

/-- Witness for the amended C6 at the concrete non-URL payload. -/
theorem create_article_bad_cover_persists_then_500_witness :
    (create_article 0 emptyStore
        ⟨"T", "s", "c", "x", "a", some "not-a-url", some []⟩).1.article =
      emptyStore.article ++
        [articleData 0 ⟨"T", "s", "c", "x", "a", some "not-a-url", some []⟩] ∧
    (create_article 0 emptyStore
        ⟨"T", "s", "c", "x", "a", some "not-a-url", some []⟩).2 =
      Except.error (ApiErr.internal500 "cover_image") :=
  create_article_bad_cover_persists_then_500 0 emptyStore
    ⟨"T", "s", "c", "x", "a", some "not-a-url", some []⟩ "not-a-url" rfl rfl

/-- Counterexample to C7: a comment payload with an empty `message`
passes `CommentCreate` validation (the empty string satisfies a
required-`str` field) and is persisted; the endpoint answers ok, it
does not reject with `ValidationError`. -/
theorem post_comment_empty_message_counterexample :
    CommentCreate.validate emptyMsgRaw = Except.ok ⟨"a", "n", ""⟩ ∧
    (post_comment_endpoint emptyStore emptyMsgRaw).2 = Except.ok () ∧
    (post_comment_endpoint emptyStore emptyMsgRaw).1.comment =
      [[("article_slug", Value.str "a"), ("name", Value.str "n"),
        ("message", Value.str "")]] :=
  ⟨rfl, rfl, rfl⟩

/-- Amended C7: posting a comment whose `message` is the empty string
passes validation — a required `str` field accepts the empty string —
and the comment is persisted; no `ValidationError` occurs. -/
theorem post_comment_empty_message_accepted (s : Store) (slug name : String) :
    CommentCreate.validate
        [("article_slug", Value.str slug), ("name", Value.str name),
         ("message", Value.str "")] = Except.ok ⟨slug, name, ""⟩ ∧
    (post_comment_endpoint s
        [("article_slug", Value.str slug), ("name", Value.str name),
         ("message", Value.str "")]).2 = Except.ok () ∧
    (post_comment_endpoint s
        [("article_slug", Value.str slug), ("name", Value.str name),
         ("message", Value.str "")]).1.comment =
      s.comment ++ [commentData ⟨slug, name, ""⟩] :=
  ⟨rfl, rfl, rfl⟩

end NewsApi
